import Mathlib

/-!
Shallow embedding of the NuttX netlink socket interface layer
(net/netlink/netlink_sockif.c): connection lifecycle and reference
counting, address binding, protocol dispatch on send, response-queue
receive, and the poll/notification bridge.

Machine integers are modelled as Nat; error returns mirror the C code
convention of negated errno values (Int).
-/

namespace Netlink

/-- NETLINK_ROUTE protocol selector (the only backend compiled in). -/
def NETLINK_ROUTE : Nat := 0

/-- AF_NETLINK address family tag. -/
def AF_NETLINK : Nat := 16

/-- PF_NETLINK protocol family (same value as AF_NETLINK). -/
def PF_NETLINK : Nat := AF_NETLINK

/-- SOCK_DGRAM socket type. -/
def SOCK_DGRAM : Nat := 2

/-- SOCK_RAW socket type. -/
def SOCK_RAW : Nat := 3

/-- POLLIN event bit. -/
def POLLIN : Nat := 1

/-- POLLOUT event bit. -/
def POLLOUT : Nat := 4

/-- MSG_DONTWAIT per-call no-wait receive flag. -/
def MSG_DONTWAIT : Nat := 64

/-- OK return value (0). -/
def OK : Int := 0

/-- errno EAGAIN (would block). -/
def EAGAIN : Int := 11

/-- errno ENOMEM (out of memory). -/
def ENOMEM : Int := 12

/-- errno EBUSY (device or resource busy). -/
def EBUSY : Int := 16

/-- errno EPROTONOSUPPORT (protocol not supported). -/
def EPROTONOSUPPORT : Int := 93

/-- errno EOPNOTSUPP (operation not supported on socket). -/
def EOPNOTSUPP : Int := 95

/-- sizeof(struct sockaddr_nl): 2 (family) + 2 (pad) + 4 (pid) + 4 (groups). -/
def sizeof_sockaddr_nl : Nat := 12

/-- struct sockaddr_nl: the netlink address structure. -/
structure sockaddr_nl where
  nl_family : Nat
  nl_pad : Nat
  nl_pid : Nat
  nl_groups : Nat
deriving DecidableEq

/-- One queued inbound netlink message (struct netlink_response_s).
`nlmsg_len` is the declared total length from the leading nlmsghdr;
`bytes` are the raw bytes of the framed message starting at that header. -/
structure netlink_response_s where
  nlmsg_len : Nat
  bytes : List Nat
deriving DecidableEq

/-- struct netlink_conn_s: the persistent state of one netlink endpoint,
with only the fields read or written by netlink_sockif.c.  The pollsem /
pollevent pointer fields are modelled as booleans (null vs non-null); the
objects they point at live in `pollwait_s`.  `notifier` models the
Notification Bridge subscription registered by netlink_notifier_setup and
cancelled by netlink_notifier_teardown (that subsystem is outside this
file). -/
structure netlink_conn_s where
  protocol : Nat
  crefs : Nat
  pid : Nat
  groups : Nat
  dst_pid : Nat
  dst_groups : Nat
  pollsem : Bool
  pollevent : Bool
  notifier : Bool
  resp_queue : List netlink_response_s
deriving DecidableEq

/-- The connection record as netlink_alloc hands it out: all fields zeroed. -/
def zeroConn : netlink_conn_s :=
  { protocol := 0, crefs := 0, pid := 0, groups := 0, dst_pid := 0,
    dst_groups := 0, pollsem := false, pollevent := false,
    notifier := false, resp_queue := [] }

/-- struct socket: the handle-level fields netlink_setup touches. -/
structure socket_s where
  s_domain : Nat
  s_type : Nat
  s_conn : Option netlink_conn_s
deriving DecidableEq

/-- Modelled from the spec: `netlink_alloc` lives in netlink_conn.c, which
is not part of this file; §4.1 of the spec says the Connection Store
allocates a zeroed Connection and reports allocation failure to the
caller.  Allocation success is a parameter. -/
def netlink_alloc (allocOk : Bool) : Option netlink_conn_s :=
  if allocOk then some zeroConn else none

/-- netlink_setup: validate the protocol (switch with only NETLINK_ROUTE
compiled in), then the domain/type pair; on success allocate a connection,
store the protocol (cast to uint8_t) and a reference count of 1, and
attach it to the socket.  Returns the updated socket and the C return
value. -/
def netlink_setup (psock : socket_s) (protocol : Nat) (allocOk : Bool) :
    socket_s × Int :=
  if protocol = NETLINK_ROUTE then
    if psock.s_domain = PF_NETLINK ∧
        (psock.s_type = SOCK_RAW ∨ psock.s_type = SOCK_DGRAM) then
      match netlink_alloc allocOk with
      | none => (psock, -ENOMEM)
      | some conn =>
          ({ psock with
             s_conn := some { conn with protocol := protocol % 256, crefs := 1 } },
           OK)
    else
      (psock, -EPROTONOSUPPORT)
  else
    (psock, -EPROTONOSUPPORT)

/-- netlink_addref: increment the reference count on the connection. -/
def netlink_addref (conn : netlink_conn_s) : netlink_conn_s :=
  { conn with crefs := conn.crefs + 1 }

/-- netlink_bind: store the local address in the connection; a zero
nl_pid is replaced by the calling process id (getpid() is modelled as the
`callerPid` argument).  Returns the updated connection and OK. -/
def netlink_bind (conn : netlink_conn_s) (addr : sockaddr_nl)
    (callerPid : Nat) : netlink_conn_s × Int :=
  ({ conn with
     pid := if addr.nl_pid ≠ 0 then addr.nl_pid else callerPid,
     groups := addr.nl_groups },
   OK)

/-- netlink_getsockname: memset the out-structure to zero, then fill the
family tag and the local identifiers from the connection. -/
def netlink_getsockname (conn : netlink_conn_s) : sockaddr_nl :=
  { nl_family := AF_NETLINK, nl_pad := 0,
    nl_pid := conn.pid, nl_groups := conn.groups }

/-- netlink_getpeername: memset the out-structure to zero, then fill the
family tag and the peer identifiers from the connection. -/
def netlink_getpeername (conn : netlink_conn_s) : sockaddr_nl :=
  { nl_family := AF_NETLINK, nl_pad := 0,
    nl_pid := conn.dst_pid, nl_groups := conn.dst_groups }

/-- netlink_connect: store the peer address in the connection. -/
def netlink_connect (conn : netlink_conn_s) (addr : sockaddr_nl) :
    netlink_conn_s × Int :=
  ({ conn with dst_pid := addr.nl_pid, dst_groups := addr.nl_groups }, OK)

/-- netlink_listen: the transport is connectionless. -/
def netlink_listen : Int := -EOPNOTSUPP

/-- netlink_accept: the transport is connectionless. -/
def netlink_accept : Int := -EOPNOTSUPP

/-- Result of netlink_close: either the record was freed (netlink_free was
called on it; `last` is its contents at that moment) or it stays alive
with a decremented reference count. -/
inductive close_result where
  | freed (last : netlink_conn_s)
  | alive (conn : netlink_conn_s)
deriving DecidableEq

/-- netlink_close: if this is the last reference (crefs <= 1), zero the
count and free the connection structure; otherwise just decrement the
reference count.  The source performs no other pre-close operation. -/
def netlink_close (conn : netlink_conn_s) : close_result :=
  if conn.crefs ≤ 1 then
    close_result.freed { conn with crefs := 0 }
  else
    close_result.alive { conn with crefs := conn.crefs - 1 }

/-- The pollfd-side objects a registration points at: the requested event
mask, the revents word written through conn.pollevent, and the number of
nxsem_post calls on the semaphore conn.pollsem points at. -/
structure pollfd_s where
  events : Nat
  revents : Nat
  sem_posts : Nat
deriving DecidableEq

/-- Modelled from the spec: `netlink_check_response` lives in
netlink_conn.c, which is not part of this file; §4.5 of the spec says
readability is reported when a Response is already queued, so it tests
queue non-emptiness. -/
def netlink_check_response (conn : netlink_conn_s) : Bool :=
  !conn.resp_queue.isEmpty

/-- netlink_response_available: the asynchronous delivery callback.  If
both registration pointers are non-null, OR POLLIN into the registered
revents word and post the registered semaphore; otherwise only warn.  In
both cases both registration pointers are then cleared. -/
def netlink_response_available (conn : netlink_conn_s) (w : pollfd_s) :
    netlink_conn_s × pollfd_s :=
  if conn.pollsem && conn.pollevent then
    ({ conn with pollsem := false, pollevent := false },
     { w with revents := w.revents ||| POLLIN, sem_posts := w.sem_posts + 1 })
  else
    ({ conn with pollsem := false, pollevent := false }, w)

/-- netlink_poll: poll setup and teardown.  On setup: POLLOUT is always
ready, POLLIN is ready when a response is queued; if any requested event
is ready it is reported immediately (writing fds.revents and posting the
semaphore).  Otherwise, if POLLIN was requested, a second outstanding
registration fails with EBUSY and a first one is recorded together with a
notification-bridge subscription (netlink_notifier_setup, outside this
file, is modelled from the spec as registering the single pending
callback and succeeding).  On teardown the subscription is cancelled and
both registration pointers cleared.  Returns (connection, pollfd, ret). -/
def netlink_poll (conn : netlink_conn_s) (fds : pollfd_s) (setup : Bool) :
    netlink_conn_s × pollfd_s × Int :=
  if setup then
    let revents0 := POLLOUT
    let revents1 :=
      if netlink_check_response conn then revents0 ||| POLLIN else revents0
    let revents := revents1 &&& fds.events
    if revents ≠ 0 then
      (conn, { fds with revents := revents, sem_posts := fds.sem_posts + 1 }, OK)
    else if fds.events &&& POLLIN ≠ 0 then
      if conn.pollsem || conn.pollevent then
        (conn, fds, -EBUSY)
      else
        ({ conn with pollsem := true, pollevent := true, notifier := true },
         fds, OK)
    else
      (conn, fds, OK)
  else
    ({ conn with pollsem := false, pollevent := false, notifier := false },
     fds, OK)

/-- The nlmsghdr fields netlink_sendto reads: only the declared length. -/
structure nlmsghdr where
  nlmsg_len : Nat
deriving DecidableEq

/-- Type of the routing backend netlink_route_sendto (defined in
netlink_route.c, outside this file): message, length, flags, destination
address, address length. -/
def route_sendto_t : Type :=
  nlmsghdr → Nat → Nat → sockaddr_nl → Nat → Int

/-- netlink_sendto: dispatch on the connection's stored protocol; only
NETLINK_ROUTE is compiled in, delegating to the routing backend; every
other protocol value fails with EOPNOTSUPP.  The backend is a
parameter. -/
def netlink_sendto (route_sendto : route_sendto_t) (conn : netlink_conn_s)
    (nlmsg : nlmsghdr) (len : Nat) (flags : Nat) (toAddr : sockaddr_nl)
    (tolen : Nat) : Int :=
  if conn.protocol = NETLINK_ROUTE then
    route_sendto nlmsg len flags toAddr tolen
  else
    -EOPNOTSUPP

/-- netlink_send: build the destination address from the connection's
peer (dst) identifiers with the netlink family tag and zero padding, then
let netlink_sendto perform the actual send operation. -/
def netlink_send (route_sendto : route_sendto_t) (conn : netlink_conn_s)
    (nlmsg : nlmsghdr) (len : Nat) (flags : Nat) : Int :=
  netlink_sendto route_sendto conn nlmsg len flags
    { nl_family := AF_NETLINK, nl_pad := 0,
      nl_pid := conn.dst_pid, nl_groups := conn.dst_groups }
    sizeof_sockaddr_nl

/-- Modelled from the spec: `netlink_tryget_response` lives in
netlink_conn.c, which is not part of this file; §4.4 of the spec says it
pops the head of the connection's FIFO response queue if present,
non-blocking. -/
def netlink_tryget_response (conn : netlink_conn_s) :
    Option netlink_response_s × netlink_conn_s :=
  match conn.resp_queue with
  | [] => (none, conn)
  | entry :: rest => (some entry, { conn with resp_queue := rest })

/-- Result of netlink_recvfrom: `ok` carries the C return value (bytes
copied), the bytes written to the caller's buffer, the source address
written through `from` when requested, and the updated connection;
`err` carries a negated errno with the (unmodified) connection;
`blocked` marks the blocking path, where the source suspends in
netlink_get_response (outside this file) until a response arrives. -/
inductive recv_result where
  | ok (nread : Nat) (out : List Nat) (src : Option sockaddr_nl)
       (conn : netlink_conn_s)
  | err (code : Int) (conn : netlink_conn_s)
  | blocked (conn : netlink_conn_s)
deriving DecidableEq

/-- netlink_recvfrom: try to dequeue a response.  If one is found, clamp
len to the declared message length, copy that many bytes, free the entry,
and fill the source address via netlink_getpeername when `want_from`.
If none is found and the handle is non-blocking or MSG_DONTWAIT is set,
fail with EAGAIN; otherwise block (netlink_get_response, outside this
file, is modelled from the spec as suspending until a Response is
enqueued). -/
def netlink_recvfrom (conn : netlink_conn_s) (len : Nat) (flags : Nat)
    (nonblock : Bool) (want_from : Bool) : recv_result :=
  match netlink_tryget_response conn with
  | (some entry, conn1) =>
      let len2 := if entry.nlmsg_len < len then entry.nlmsg_len else len
      recv_result.ok len2 (entry.bytes.take len2)
        (if want_from then some (netlink_getpeername conn1) else none)
        conn1
  | (none, conn1) =>
      if nonblock = true ∨ flags &&& MSG_DONTWAIT ≠ 0 then
        recv_result.err (-EAGAIN) conn1
      else
        recv_result.blocked conn1

/-- One reference-count operation of the socket layer. -/
inductive ref_op where
  | addref
  | close
deriving DecidableEq

/-- One step of the reference-count state machine: `none` is the freed
record (absorbing); on a live record, addref runs netlink_addref and
close runs netlink_close, the record becoming `none` exactly when
netlink_close frees it. -/
def ref_step (s : Option netlink_conn_s) (op : ref_op) :
    Option netlink_conn_s :=
  match s, op with
  | none, _ => none
  | some c, ref_op.addref => some (netlink_addref c)
  | some c, ref_op.close =>
      match netlink_close c with
      | close_result.freed _ => none
      | close_result.alive c2 => some c2

/-- The transition list of a run: one (before, op, after) triple per
operation. -/
def ref_trace (s : Option netlink_conn_s) :
    List ref_op → List (Option netlink_conn_s × ref_op × Option netlink_conn_s)
  | [] => []
  | op :: rest => (s, op, ref_step s op) :: ref_trace (ref_step s op) rest

/-- Number of destroying transitions (live before, freed after) in a
transition list. -/
def destroy_count
    (tr : List (Option netlink_conn_s × ref_op × Option netlink_conn_s)) :
    Nat :=
  tr.countP fun t => t.1.isSome && t.2.2.isNone

/-- The socket netlink_setup accepts: netlink domain, datagram type. -/
def sockGood : socket_s :=
  { s_domain := PF_NETLINK, s_type := SOCK_DGRAM, s_conn := none }

/-- The connection netlink_setup attaches for NETLINK_ROUTE: zeroed,
protocol stored, reference count 1. -/
def refConn0 : netlink_conn_s :=
  { zeroConn with protocol := NETLINK_ROUTE, crefs := 1 }

/-- A connection holding its last reference with a poll registration
outstanding (both registration pointers non-null, bridge subscription
active). -/
def staleConn : netlink_conn_s :=
  { protocol := 0, crefs := 1, pid := 42, groups := 0, dst_pid := 0,
    dst_groups := 0, pollsem := true, pollevent := true, notifier := true,
    resp_queue := [] }

/-- A connection with an empty response queue and an outstanding poll
registration. -/
def busyConn : netlink_conn_s :=
  { protocol := 0, crefs := 1, pid := 0, groups := 0, dst_pid := 0,
    dst_groups := 0, pollsem := true, pollevent := true, notifier := true,
    resp_queue := [] }

/-- A connection with one queued five-byte response and peer (7, 9). -/
def recvConn : netlink_conn_s :=
  { zeroConn with
    crefs := 1, dst_pid := 7, dst_groups := 9,
    resp_queue := [{ nlmsg_len := 5, bytes := [1, 2, 3, 4, 5] }] }

/-- A connection with an empty response queue. -/
def emptyConn : netlink_conn_s :=
  { zeroConn with crefs := 1, dst_pid := 7, dst_groups := 9 }

/-- A socket with an unsupported type for the netlink family. -/
def sockBad : socket_s :=
  { s_domain := PF_NETLINK, s_type := 1, s_conn := none }

/-- A concrete netlink destination address. -/
def addr0 : sockaddr_nl :=
  { nl_family := AF_NETLINK, nl_pad := 0, nl_pid := 0, nl_groups := 0 }

/-- A concrete routing backend that reports the whole buffer as sent. -/
def demoRoute : route_sendto_t :=
  fun _ len _ _ _ => (len : Int)

/-- A connection speaking the routing protocol with peer (3, 4). -/
def routeConn : netlink_conn_s :=
  { zeroConn with
    protocol := NETLINK_ROUTE, crefs := 1, dst_pid := 3, dst_groups := 4 }

/-- A connection whose stored protocol is not the routing protocol. -/
def otherConn : netlink_conn_s :=
  { zeroConn with protocol := 2, crefs := 1 }

/-- A connection with a live poll registration. -/
def regConn : netlink_conn_s :=
  { zeroConn with
    crefs := 1, pollsem := true, pollevent := true, notifier := true }

/-- A concrete pollfd requesting readability. -/
def fdsIn : pollfd_s :=
  { events := POLLIN, revents := 0, sem_posts := 0 }

/-- Every transition reached from the freed record starts (and ends) at
the freed record. -/
lemma ref_trace_none_pre :
    ∀ (ops : List ref_op) t, t ∈ ref_trace none ops → t.1 = none := by
  intro ops
  induction ops with
  | nil => intro t ht; simp [ref_trace] at ht
  | cons op rest ih =>
      intro t ht
      simp only [ref_trace] at ht
      rcases List.mem_cons.mp ht with h | h
      · subst h; rfl
      · exact ih t h

/-- A run from the freed record contains no destroying transition. -/
lemma destroy_count_none (ops : List ref_op) :
    destroy_count (ref_trace none ops) = 0 := by
  induction ops with
  | nil => rfl
  | cons op rest ih =>
      simp only [ref_trace, destroy_count, List.countP_cons] at ih ⊢
      simp [ih, ref_step]

/-- A run from a live record destroys it at most once. -/
lemma destroy_count_le (ops : List ref_op) :
    ∀ c, destroy_count (ref_trace (some c) ops) ≤ 1 := by
  induction ops with
  | nil => intro c; simp [ref_trace, destroy_count]
  | cons op rest ih =>
      intro c
      cases hs : ref_step (some c) op with
      | none =>
          have h0 := destroy_count_none rest
          simp only [ref_trace, hs, destroy_count, List.countP_cons] at h0 ⊢
          simp [h0]
      | some c2 =>
          have h1 := ih c2
          simp only [ref_trace, hs, destroy_count, List.countP_cons] at h1 ⊢
          simp [h1]

/-- In every transition of a run, the after-state is the step function
applied to the before-state. -/
lemma ref_trace_post_eq :
    ∀ (ops : List ref_op) s t, t ∈ ref_trace s ops →
      t.2.2 = ref_step t.1 t.2.1 := by
  intro ops
  induction ops with
  | nil => intro s t ht; simp [ref_trace] at ht
  | cons op rest ih =>
      intro s t ht
      simp only [ref_trace] at ht
      rcases List.mem_cons.mp ht with h | h
      · subst h; rfl
      · exact ih _ t h

/-- A step that leaves the record live keeps the reference count
positive. -/
lemma ref_step_pos (c : netlink_conn_s) (op : ref_op) (c2 : netlink_conn_s)
    (hc : 1 ≤ c.crefs) (hs : ref_step (some c) op = some c2) :
    1 ≤ c2.crefs := by
  cases op with
  | addref =>
      simp only [ref_step, netlink_addref, Option.some.injEq] at hs
      rw [← hs]
      show 1 ≤ c.crefs + 1
      omega
  | close =>
      by_cases h : c.crefs ≤ 1
      · simp [ref_step, netlink_close, h] at hs
      · simp only [ref_step, netlink_close, if_neg h, Option.some.injEq] at hs
        rw [← hs]
        show 1 ≤ c.crefs - 1
        omega

/-- Every live before-state reachable from a live record with positive
count has positive count. -/
lemma ref_trace_pre_pos :
    ∀ (ops : List ref_op) (c : netlink_conn_s), 1 ≤ c.crefs →
      ∀ t, t ∈ ref_trace (some c) ops → ∀ c0, t.1 = some c0 →
        1 ≤ c0.crefs := by
  intro ops
  induction ops with
  | nil => intro c hc t ht; simp [ref_trace] at ht
  | cons op rest ih =>
      intro c hc t ht c0 h0
      simp only [ref_trace] at ht
      rcases List.mem_cons.mp ht with h | h
      · subst h
        simp only [Option.some.injEq] at h0
        subst h0
        exact hc
      · cases hs : ref_step (some c) op with
        | none =>
            rw [hs] at h
            have := ref_trace_none_pre rest t h
            rw [this] at h0
            exact Option.noConfusion h0
        | some c2 =>
            rw [hs] at h
            exact ih c2 (ref_step_pos c op c2 hc hs) t h c0 h0

/-- C1: Reference-count discipline.  netlink_setup attaches a connection
with crefs = 1.  Along any sequence of netlink_addref / netlink_close
calls starting there, at most one transition destroys the record; every
live state has a positive count; a transition destroys the record exactly
when it is a close whose incoming count is 1 (the close that brings it to
0); a close at a count above 1 only decrements; an addref only
increments. -/
theorem netlink_refcount_discipline (ops : List ref_op)
    (t : Option netlink_conn_s × ref_op × Option netlink_conn_s)
    (ht : t ∈ ref_trace (some refConn0) ops)
    (c : netlink_conn_s) (hc : t.1 = some c) :
    (netlink_setup sockGood NETLINK_ROUTE true).1.s_conn = some refConn0 ∧
    refConn0.crefs = 1 ∧
    destroy_count (ref_trace (some refConn0) ops) ≤ 1 ∧
    1 ≤ c.crefs ∧
    (t.2.2 = none ↔ (t.2.1 = ref_op.close ∧ c.crefs = 1)) ∧
    (t.2.1 = ref_op.close → 1 < c.crefs →
       t.2.2 = some { c with crefs := c.crefs - 1 }) ∧
    (t.2.1 = ref_op.addref →
       t.2.2 = some { c with crefs := c.crefs + 1 }) := by
  have hpos : 1 ≤ c.crefs :=
    ref_trace_pre_pos ops refConn0 (by decide) t ht c hc
  have hpost : t.2.2 = ref_step t.1 t.2.1 := ref_trace_post_eq ops _ t ht
  rw [hc] at hpost
  refine ⟨by decide, rfl, destroy_count_le ops refConn0, hpos, ?_, ?_, ?_⟩
  · cases hop : t.2.1 with
    | addref =>
        rw [hop] at hpost
        simp only [ref_step, netlink_addref] at hpost
        simp [hpost]
    | close =>
        rw [hop] at hpost
        by_cases hcr : c.crefs ≤ 1
        · have h1 : c.crefs = 1 := le_antisymm hcr hpos
          simp only [ref_step, netlink_close, if_pos hcr] at hpost
          simp [hpost, h1]
        · simp only [ref_step, netlink_close, if_neg hcr] at hpost
          simp only [hpost]
          constructor
          · intro h; exact Option.noConfusion h
          · rintro ⟨-, h1⟩; omega
  · intro hop hgt
    rw [hop] at hpost
    have hcr : ¬ c.crefs ≤ 1 := by omega
    simp only [ref_step, netlink_close, if_neg hcr] at hpost
    exact hpost
  · intro hop
    rw [hop] at hpost
    simpa [ref_step, netlink_addref] using hpost

/-- C1 witness: the sequence addref, close, close destroys the record at
its third step, whose incoming count is 1. -/
theorem netlink_refcount_discipline_witness :
    (netlink_setup sockGood NETLINK_ROUTE true).1.s_conn = some refConn0 ∧
    refConn0.crefs = 1 ∧
    destroy_count (ref_trace (some refConn0)
      [ref_op.addref, ref_op.close, ref_op.close]) ≤ 1 ∧
    1 ≤ refConn0.crefs ∧
    ((none : Option netlink_conn_s) = none ↔
       (ref_op.close = ref_op.close ∧ refConn0.crefs = 1)) ∧
    (ref_op.close = ref_op.close → 1 < refConn0.crefs →
       (none : Option netlink_conn_s) =
         some { refConn0 with crefs := refConn0.crefs - 1 }) ∧
    (ref_op.close = ref_op.addref →
       (none : Option netlink_conn_s) =
         some { refConn0 with crefs := refConn0.crefs + 1 }) :=
  netlink_refcount_discipline [ref_op.addref, ref_op.close, ref_op.close]
    (some refConn0, ref_op.close, none) (by decide) refConn0 rfl

/-- C2: netlink_close, releasing the last reference of a connection with
a poll registration outstanding, hands the record to netlink_free with
both registration pointers still non-null and the notification-bridge
subscription still active — it performs no unregistration — and the
delivery callback run against that record still writes POLLIN through the
stale pointer and posts the stale semaphore instead of being a no-op. -/
theorem netlink_close_stale_registration :
    netlink_close staleConn =
      close_result.freed { staleConn with crefs := 0 } ∧
    ({ staleConn with crefs := 0 } : netlink_conn_s).pollsem = true ∧
    ({ staleConn with crefs := 0 } : netlink_conn_s).pollevent = true ∧
    ({ staleConn with crefs := 0 } : netlink_conn_s).notifier = true ∧
    (netlink_response_available { staleConn with crefs := 0 }
       { events := POLLIN, revents := 0, sem_posts := 0 }).2.sem_posts = 1 := by
  exact ⟨rfl, rfl, rfl, rfl, rfl⟩

/-- C3 counterexample: with readability requested together with
writability, an empty response queue, and a registration outstanding,
netlink_poll setup reports POLLOUT immediately and returns OK — not
EBUSY. -/
theorem netlink_poll_busy_cex :
    netlink_poll busyConn
        { events := POLLIN ||| POLLOUT, revents := 0, sem_posts := 0 } true =
      (busyConn,
       { events := POLLIN ||| POLLOUT, revents := POLLOUT, sem_posts := 1 },
       OK) ∧
    OK ≠ -EBUSY := by
  exact ⟨by decide, by decide⟩

/-- C3 (amended): when poll setup requests readability and not
writability, no response is queued, and a registration is already
outstanding, the attempt fails with EBUSY and both the connection and the
pollfd are left unchanged. -/
theorem netlink_poll_busy (conn : netlink_conn_s) (fds : pollfd_s)
    (hq : conn.resp_queue = [])
    (hin : fds.events &&& POLLIN ≠ 0)
    (hout : fds.events &&& POLLOUT = 0)
    (hreg : conn.pollsem = true ∨ conn.pollevent = true) :
    netlink_poll conn fds true = (conn, fds, -EBUSY) := by
  have h1 : POLLOUT &&& fds.events = 0 := by
    rw [Nat.land_comm]
    exact hout
  have h2 : (conn.pollsem || conn.pollevent) = true := by
    rcases hreg with h | h <;> simp [h]
  simp [netlink_poll, netlink_check_response, hq, h1, hin, h2]

/-- C3 witness: a connection with an outstanding registration and empty
queue rejects a POLLIN-only registration with EBUSY, unchanged. -/
theorem netlink_poll_busy_witness :
    netlink_poll busyConn fdsIn true = (busyConn, fdsIn, -EBUSY) :=
  netlink_poll_busy busyConn fdsIn rfl (by decide) (by decide) (Or.inl rfl)

/-- C4: receiving with a response queued copies min(len, nlmsg_len) bytes
of the message, returns that count, removes the entry from the queue, and
fills the source address from the connection's peer (dst) fields exactly
when one was requested. -/
theorem netlink_recvfrom_truncation (conn : netlink_conn_s)
    (entry : netlink_response_s) (rest : List netlink_response_s)
    (len flags : Nat) (nonblock want_from : Bool)
    (hq : conn.resp_queue = entry :: rest) :
    netlink_recvfrom conn len flags nonblock want_from =
      recv_result.ok (min len entry.nlmsg_len)
        (entry.bytes.take (min len entry.nlmsg_len))
        (if want_from then
           some { nl_family := AF_NETLINK, nl_pad := 0,
                  nl_pid := conn.dst_pid, nl_groups := conn.dst_groups }
         else none)
        { conn with resp_queue := rest } := by
  have hm : (if entry.nlmsg_len < len then entry.nlmsg_len else len) =
      min len entry.nlmsg_len := by
    rw [Nat.min_def]
    split_ifs <;> omega
  simp [netlink_recvfrom, netlink_tryget_response, hq, hm,
        netlink_getpeername]

/-- C4 witness: a five-byte message received into a three-byte buffer
copies its first three bytes, reports 3, consumes the entry, and reports
peer (7, 9) as the source. -/
theorem netlink_recvfrom_truncation_witness :
    netlink_recvfrom recvConn 3 0 false true =
      recv_result.ok 3 [1, 2, 3]
        (some { nl_family := AF_NETLINK, nl_pad := 0,
                nl_pid := 7, nl_groups := 9 })
        { recvConn with resp_queue := [] } := by
  exact netlink_recvfrom_truncation recvConn
    { nlmsg_len := 5, bytes := [1, 2, 3, 4, 5] } [] 3 0 false true rfl

/-- C5: receiving on an empty queue with the handle non-blocking, or with
MSG_DONTWAIT set in the per-call flags, fails with EAGAIN and returns the
connection unmodified. -/
theorem netlink_recvfrom_wouldblock (conn : netlink_conn_s)
    (len flags : Nat) (nonblock want_from : Bool)
    (hq : conn.resp_queue = [])
    (hnb : nonblock = true ∨ flags &&& MSG_DONTWAIT ≠ 0) :
    netlink_recvfrom conn len flags nonblock want_from =
      recv_result.err (-EAGAIN) conn := by
  simp only [netlink_recvfrom, netlink_tryget_response, hq]
  rw [if_pos hnb]

/-- C5 witness: both the non-blocking handle flag and the MSG_DONTWAIT
per-call flag make an empty-queue receive fail with EAGAIN, leaving the
connection as it was. -/
theorem netlink_recvfrom_wouldblock_witness :
    netlink_recvfrom emptyConn 8 0 true false =
      recv_result.err (-EAGAIN) emptyConn ∧
    netlink_recvfrom emptyConn 8 MSG_DONTWAIT false false =
      recv_result.err (-EAGAIN) emptyConn :=
  ⟨netlink_recvfrom_wouldblock emptyConn 8 0 true false rfl (Or.inl rfl),
   netlink_recvfrom_wouldblock emptyConn 8 MSG_DONTWAIT false false rfl
     (Or.inr (by decide))⟩

/-- C6: binding to (pid, groups) and then reading the local address with
netlink_getsockname returns exactly those identifiers — with pid 0
replaced by the calling process id — under the netlink family tag with
zero padding. -/
theorem netlink_bind_getsockname (conn : netlink_conn_s)
    (addr : sockaddr_nl) (callerPid : Nat) :
    netlink_getsockname (netlink_bind conn addr callerPid).1 =
      { nl_family := AF_NETLINK, nl_pad := 0,
        nl_pid := if addr.nl_pid = 0 then callerPid else addr.nl_pid,
        nl_groups := addr.nl_groups } := by
  by_cases h : addr.nl_pid = 0 <;>
    simp [netlink_bind, netlink_getsockname, h]

/-- C7: netlink_setup fails with EPROTONOSUPPORT, leaving the socket
untouched, for every protocol other than NETLINK_ROUTE and for every
domain/type pair other than PF_NETLINK with SOCK_RAW or SOCK_DGRAM; when
it succeeds, the attached connection stores the requested protocol and a
reference count of 1. -/
theorem netlink_setup_validation :
    (∀ (psock : socket_s) (protocol : Nat) (allocOk : Bool),
       protocol ≠ NETLINK_ROUTE →
       netlink_setup psock protocol allocOk = (psock, -EPROTONOSUPPORT)) ∧
    (∀ (psock : socket_s) (protocol : Nat) (allocOk : Bool),
       ¬(psock.s_domain = PF_NETLINK ∧
           (psock.s_type = SOCK_RAW ∨ psock.s_type = SOCK_DGRAM)) →
       netlink_setup psock protocol allocOk = (psock, -EPROTONOSUPPORT)) ∧
    (∀ (psock : socket_s) (protocol : Nat) (allocOk : Bool)
       (outSock : socket_s),
       netlink_setup psock protocol allocOk = (outSock, OK) →
       ∃ conn, outSock.s_conn = some conn ∧ conn.protocol = protocol ∧
         conn.crefs = 1) := by
  refine ⟨?_, ?_, ?_⟩
  · intro psock protocol allocOk h
    simp [netlink_setup, h]
  · intro psock protocol allocOk h
    by_cases hp : protocol = NETLINK_ROUTE
    · simp [netlink_setup, hp, h]
    · simp [netlink_setup, hp]
  · intro psock protocol allocOk outSock hok
    by_cases hp : protocol = NETLINK_ROUTE
    · by_cases hd : psock.s_domain = PF_NETLINK ∧
          (psock.s_type = SOCK_RAW ∨ psock.s_type = SOCK_DGRAM)
      · cases allocOk with
        | false =>
            simp [netlink_setup, hp, hd, netlink_alloc] at hok
            exact absurd hok.2 (by decide)
        | true =>
            subst hp
            simp [netlink_setup, hd, netlink_alloc] at hok
            refine ⟨refConn0, ?_, rfl, rfl⟩
            rw [← hok]
            rfl
      · simp [netlink_setup, hp, hd] at hok
        exact absurd hok.2 (by decide)
    · simp [netlink_setup, hp] at hok
      exact absurd hok.2 (by decide)

/-- C7 witness: protocol 5 is rejected, SOCK_STREAM on the netlink
domain is rejected, and a successful setup attaches a connection with
the requested protocol and reference count 1. -/
theorem netlink_setup_validation_witness :
    netlink_setup sockGood 5 true = (sockGood, -EPROTONOSUPPORT) ∧
    netlink_setup sockBad NETLINK_ROUTE true = (sockBad, -EPROTONOSUPPORT) ∧
    (∃ conn, (netlink_setup sockGood NETLINK_ROUTE true).1.s_conn =
        some conn ∧ conn.protocol = NETLINK_ROUTE ∧ conn.crefs = 1) :=
  ⟨netlink_setup_validation.1 sockGood 5 true (by decide),
   netlink_setup_validation.2.1 sockBad NETLINK_ROUTE true (by decide),
   netlink_setup_validation.2.2 sockGood NETLINK_ROUTE true
     (netlink_setup sockGood NETLINK_ROUTE true).1 rfl⟩

/-- C8: netlink_sendto fails with EOPNOTSUPP for every stored protocol
other than NETLINK_ROUTE; for NETLINK_ROUTE it delegates to the routing
backend with the message, length, flags, destination address, and
address length; and netlink_send is netlink_sendto on the destination
synthesized from the connection's peer (dst) identifiers. -/
theorem netlink_send_dispatch :
    (∀ (route : route_sendto_t) (conn : netlink_conn_s) (nlmsg : nlmsghdr)
       (len flags : Nat) (toAddr : sockaddr_nl) (tolen : Nat),
       conn.protocol ≠ NETLINK_ROUTE →
       netlink_sendto route conn nlmsg len flags toAddr tolen =
         -EOPNOTSUPP) ∧
    (∀ (route : route_sendto_t) (conn : netlink_conn_s) (nlmsg : nlmsghdr)
       (len flags : Nat) (toAddr : sockaddr_nl) (tolen : Nat),
       conn.protocol = NETLINK_ROUTE →
       netlink_sendto route conn nlmsg len flags toAddr tolen =
         route nlmsg len flags toAddr tolen) ∧
    (∀ (route : route_sendto_t) (conn : netlink_conn_s) (nlmsg : nlmsghdr)
       (len flags : Nat),
       netlink_send route conn nlmsg len flags =
         netlink_sendto route conn nlmsg len flags
           { nl_family := AF_NETLINK, nl_pad := 0,
             nl_pid := conn.dst_pid, nl_groups := conn.dst_groups }
           sizeof_sockaddr_nl) := by
  refine ⟨?_, ?_, ?_⟩
  · intro route conn nlmsg len flags toAddr tolen h
    simp [netlink_sendto, h]
  · intro route conn nlmsg len flags toAddr tolen h
    simp [netlink_sendto, h]
  · intro route conn nlmsg len flags
    rfl

/-- C8 witness: a protocol-2 connection is refused; a routing connection
delegates to the backend; netlink_send equals netlink_sendto at the
synthesized peer destination. -/
theorem netlink_send_dispatch_witness :
    netlink_sendto demoRoute otherConn { nlmsg_len := 16 } 16 0 addr0 12 =
      -EOPNOTSUPP ∧
    netlink_sendto demoRoute routeConn { nlmsg_len := 16 } 16 0 addr0 12 =
      demoRoute { nlmsg_len := 16 } 16 0 addr0 12 ∧
    netlink_send demoRoute routeConn { nlmsg_len := 16 } 16 0 =
      netlink_sendto demoRoute routeConn { nlmsg_len := 16 } 16 0
        { nl_family := AF_NETLINK, nl_pad := 0,
          nl_pid := routeConn.dst_pid, nl_groups := routeConn.dst_groups }
        sizeof_sockaddr_nl :=
  ⟨netlink_send_dispatch.1 demoRoute otherConn { nlmsg_len := 16 } 16 0
     addr0 12 (by decide),
   netlink_send_dispatch.2.1 demoRoute routeConn { nlmsg_len := 16 } 16 0
     addr0 12 rfl,
   netlink_send_dispatch.2.2 demoRoute routeConn { nlmsg_len := 16 } 16 0⟩

/-- C9: the delivery callback with a registration outstanding ORs POLLIN
into the registered revents word, posts the registered semaphore once,
and clears both registration pointers; with no registration outstanding
it returns with nothing signalled and the already-null pointers cleared;
in every case both pointers are null afterwards. -/
theorem netlink_response_available_singleshot :
    (∀ (conn : netlink_conn_s) (w : pollfd_s),
       conn.pollsem = true → conn.pollevent = true →
       netlink_response_available conn w =
         ({ conn with pollsem := false, pollevent := false },
          { w with revents := w.revents ||| POLLIN,
                   sem_posts := w.sem_posts + 1 })) ∧
    (∀ (conn : netlink_conn_s) (w : pollfd_s),
       conn.pollsem = false → conn.pollevent = false →
       netlink_response_available conn w = (conn, w)) ∧
    (∀ (conn : netlink_conn_s) (w : pollfd_s),
       (netlink_response_available conn w).1.pollsem = false ∧
       (netlink_response_available conn w).1.pollevent = false) := by
  refine ⟨?_, ?_, ?_⟩
  · intro conn w h1 h2
    simp [netlink_response_available, h1, h2]
  · intro conn w h1 h2
    cases conn
    simp only at h1 h2
    subst h1
    subst h2
    simp [netlink_response_available]
  · intro conn w
    by_cases h : (conn.pollsem && conn.pollevent) = true <;>
      simp [netlink_response_available, h]

/-- C9 witness: firing with a live registration posts the semaphore and
sets POLLIN; firing on a quiescent connection is an identity; pointers
end up null in both runs. -/
theorem netlink_response_available_singleshot_witness :
    netlink_response_available regConn fdsIn =
      ({ regConn with pollsem := false, pollevent := false },
       { fdsIn with revents := fdsIn.revents ||| POLLIN,
                    sem_posts := fdsIn.sem_posts + 1 }) ∧
    netlink_response_available emptyConn fdsIn = (emptyConn, fdsIn) ∧
    ((netlink_response_available regConn fdsIn).1.pollsem = false ∧
     (netlink_response_available regConn fdsIn).1.pollevent = false) :=
  ⟨netlink_response_available_singleshot.1 regConn fdsIn rfl rfl,
   netlink_response_available_singleshot.2.1 emptyConn fdsIn rfl rfl,
   netlink_response_available_singleshot.2.2 regConn fdsIn⟩

/-- C10: netlink_bind returns OK and changes nothing but the local
identifier fields — the protocol, peer identifiers, reference count,
response queue, registration pointers, and bridge subscription are
untouched. -/
theorem netlink_bind_frame (conn : netlink_conn_s) (addr : sockaddr_nl)
    (callerPid : Nat) :
    (netlink_bind conn addr callerPid).2 = OK ∧
    (netlink_bind conn addr callerPid).1.protocol = conn.protocol ∧
    (netlink_bind conn addr callerPid).1.dst_pid = conn.dst_pid ∧
    (netlink_bind conn addr callerPid).1.dst_groups = conn.dst_groups ∧
    (netlink_bind conn addr callerPid).1.crefs = conn.crefs ∧
    (netlink_bind conn addr callerPid).1.resp_queue = conn.resp_queue ∧
    (netlink_bind conn addr callerPid).1.pollsem = conn.pollsem ∧
    (netlink_bind conn addr callerPid).1.pollevent = conn.pollevent ∧
    (netlink_bind conn addr callerPid).1.notifier = conn.notifier :=
  ⟨rfl, rfl, rfl, rfl, rfl, rfl, rfl, rfl, rfl⟩

end Netlink
